import Mathlib

/-
  Verification development for the phone-advisor application (src/app.py).

  The Python source is shallowly embedded: the query text is a list of
  characters, the pandas DataFrame is a list of rows, the filters dict is a
  structure of Option fields, and each regular-expression search of the
  source is modelled by an explicit leftmost-scan matcher whose
  deterministic choices (maximal digit runs, greedy whitespace skipping,
  alternation order) coincide with the backtracking semantics of the
  original patterns, because in every pattern of the source the captured
  digit run is followed by a non-digit literal and the alternatives are
  prefix-free.
-/

/-- Python regex class backslash-s over ASCII, as used by re.search. -/
def isSpaceChar (c : Char) : Bool :=
  c == ' ' || c == '\t' || c == '\n' || c == '\r' || c == '\x0b' || c == '\x0c'

/-- Model of query.lower(): the character list of the string, lower-cased. -/
def lowerChars (s : String) : List Char := s.data.map Char.toLower

/-- Model of str.lower() producing a string again. -/
def lowerStr (s : String) : String := String.mk (s.data.map Char.toLower)

/-- Whether needle is a prefix of hay, as a boolean. -/
def startsLit : List Char → List Char → Bool
  | [], _ => true
  | _ :: _, [] => false
  | n :: ns, c :: cs => n == c && startsLit ns cs

/-- Whether needle occurs as a contiguous substring of hay: model of the
Python membership test needle in hay on strings. -/
def containsSub (hay : List Char) (needle : String) : Bool :=
  match hay with
  | [] => needle.data.isEmpty
  | _ :: t => startsLit needle.data hay || containsSub t needle

/-- Substring test between two strings, model of needle in hay. -/
def strContains (hay needle : String) : Bool := containsSub hay.data needle

/-- Strip a literal off the front of the character stream, or fail. -/
def dropLit : List Char → List Char → Option (List Char)
  | [], cs => some cs
  | _ :: _, [] => none
  | l :: ls, c :: cs => if l == c then dropLit ls cs else none

/-- Try a list of literal alternatives in order (regex alternation; all
alternation groups in the source are prefix-free, so at most one
alternative can match at a given position). -/
def dropAlts : List String → List Char → Option (List Char)
  | [], _ => none
  | a :: as, cs =>
    match dropLit a.data cs with
    | some r => some r
    | none => dropAlts as cs

/-- Greedy backslash-s-star. -/
def skipWS (cs : List Char) : List Char := cs.dropWhile isSpaceChar

/-- Optional rupee sign: the regex piece for the currency mark followed by
a question mark. -/
def skipRupee : List Char → List Char
  | '₹' :: cs => cs
  | cs => cs

/-- Numeric value of a digit run (regex capture converted by int()). -/
def digitsToNat (ds : List Char) : Nat :=
  ds.foldl (fun a c => a * 10 + (c.toNat - '0'.toNat)) 0

/-- Greedy backslash-d-plus: maximal nonempty digit run and the rest. -/
def readDigits (cs : List Char) : Option (Nat × List Char) :=
  match cs.takeWhile Char.isDigit with
  | [] => none
  | ds => some (digitsToNat ds, cs.dropWhile Char.isDigit)

/-- Leftmost-match scan: re.search tries each start position from the left
and returns the first position where the pattern matches. -/
def searchAt {α : Type} (t : List Char → Option α) : List Char → Option α
  | [] => t []
  | c :: cs =>
    match t (c :: cs) with
    | some v => some v
    | none => searchAt t cs

/-- One position of the pattern (?:under|less than|below) ws rupee? ws (d+)
from line 56 of src/app.py. -/
def priceMaxAt (cs : List Char) : Option Nat :=
  match dropAlts ["under", "less than", "below"] cs with
  | none => none
  | some r =>
    match readDigits (skipWS (skipRupee (skipWS r))) with
    | some nv => some nv.1
    | none => none

def priceMaxSearch (ql : List Char) : Option Nat := searchAt priceMaxAt ql

/-- One position of the pattern rupee (d+) ws (?:to|-) ws rupee? (d+) from
line 61 of src/app.py. -/
def priceRangeAt (cs : List Char) : Option (Nat × Nat) :=
  match cs with
  | '₹' :: r1 =>
    match readDigits r1 with
    | none => none
    | some (a, r2) =>
      match dropAlts ["to", "-"] (skipWS r2) with
      | none => none
      | some r3 =>
        match readDigits (skipRupee (skipWS r3)) with
        | none => none
        | some (b, _) => some (a, b)
  | _ => none

def priceRangeSearch (ql : List Char) : Option (Nat × Nat) := searchAt priceRangeAt ql

/-- One position of the pattern (?:over|above|more than) ws rupee? ws (d+)
from lines 66-67 of src/app.py. -/
def priceMinAt (cs : List Char) : Option Nat :=
  match dropAlts ["over", "above", "more than"] cs with
  | none => none
  | some r =>
    match readDigits (skipWS (skipRupee (skipWS r))) with
    | some nv => some nv.1
    | none => none

def priceMinSearch (ql : List Char) : Option Nat := searchAt priceMinAt ql

/-- One position of the pattern (?:around|about) ws rupee? ws (d+) from
line 70 of src/app.py. -/
def aroundAt (cs : List Char) : Option Nat :=
  match dropAlts ["around", "about"] cs with
  | none => none
  | some r =>
    match readDigits (skipWS (skipRupee (skipWS r))) with
    | some nv => some nv.1
    | none => none

def aroundSearch (ql : List Char) : Option Nat := searchAt aroundAt ql

/-- One position of the pattern (d+) ws gb ws ram from line 79 of
src/app.py. -/
def ramExplicitAt (cs : List Char) : Option Nat :=
  match readDigits cs with
  | none => none
  | some (n, r1) =>
    match dropLit "gb".data (skipWS r1) with
    | none => none
    | some r2 =>
      match dropLit "ram".data (skipWS r2) with
      | none => none
      | some _ => some n

def ramExplicitSearch (ql : List Char) : Option Nat := searchAt ramExplicitAt ql

/-- One position of the pattern (d+) ws gb with a negative lookahead for
ws (?:storage|rom), from line 86 of src/app.py. -/
def ramAmbigAt (cs : List Char) : Option Nat :=
  match readDigits cs with
  | none => none
  | some (n, r1) =>
    match dropLit "gb".data (skipWS r1) with
    | none => none
    | some r2 =>
      let la := skipWS r2
      if (dropLit "storage".data la).isSome || (dropLit "rom".data la).isSome then none
      else some n

def ramAmbigSearch (ql : List Char) : Option Nat := searchAt ramAmbigAt ql

/-- One position of the pattern (?:min|at least) ws (d+) ws gb with an
optional ws ram tail, from line 93 of src/app.py; the optional tail can
never make a match fail and does not move the capture. -/
def ramMinGbAt (cs : List Char) : Option Nat :=
  match dropAlts ["min", "at least"] cs with
  | none => none
  | some r =>
    match readDigits (skipWS r) with
    | none => none
    | some (n, r1) =>
      match dropLit "gb".data (skipWS r1) with
      | none => none
      | some _ => some n

def ramMinGbSearch (ql : List Char) : Option Nat := searchAt ramMinGbAt ql

/-- One position of the pattern (d+) ws gb (?: ws storage | ws rom) from
line 98 of src/app.py. -/
def storageExplicitAt (cs : List Char) : Option Nat :=
  match readDigits cs with
  | none => none
  | some (n, r1) =>
    match dropLit "gb".data (skipWS r1) with
    | none => none
    | some r2 =>
      let la := skipWS r2
      if (dropLit "storage".data la).isSome || (dropLit "rom".data la).isSome then some n
      else none

def storageExplicitSearch (ql : List Char) : Option Nat := searchAt storageExplicitAt ql

/-- One position of the bare pattern (d+) ws gb from line 106 of
src/app.py. -/
def storageAmbigAt (cs : List Char) : Option Nat :=
  match readDigits cs with
  | none => none
  | some (n, r1) =>
    match dropLit "gb".data (skipWS r1) with
    | none => none
    | some _ => some n

def storageAmbigSearch (ql : List Char) : Option Nat := searchAt storageAmbigAt ql

/-- One position of the pattern (?:min|at least) ws (d+) ws gb with an
optional ws storage / ws rom tail, from line 110 of src/app.py; as for the
ram variant the optional tail is irrelevant to success and capture. -/
def storageMinGbAt (cs : List Char) : Option Nat :=
  match dropAlts ["min", "at least"] cs with
  | none => none
  | some r =>
    match readDigits (skipWS r) with
    | none => none
    | some (n, r1) =>
      match dropLit "gb".data (skipWS r1) with
      | none => none
      | some _ => some n

def storageMinGbSearch (ql : List Char) : Option Nat := searchAt storageMinGbAt ql

/-- One position of the pattern (d+) ws mah with an optional ws battery
tail, from line 115 of src/app.py. -/
def batteryAt (cs : List Char) : Option Nat :=
  match readDigits cs with
  | none => none
  | some (n, r1) =>
    match dropLit "mah".data (skipWS r1) with
    | none => none
    | some _ => some n

def batterySearch (ql : List Char) : Option Nat := searchAt batteryAt ql

/-- The filters dictionary built by extract_filters and consumed by
filter_data: one Option field per recognized key, none meaning the key is
absent from the dict. -/
structure Filters where
  price_min : Option Nat := none
  price_max : Option Nat := none
  ram_min : Option Nat := none
  storage_min : Option Nat := none
  battery_capacity_mah : Option Nat := none
  brand : Option String := none
  keyword_gaming : Option Bool := none
  keyword_camera : Option Bool := none
  keyword_budget : Option Bool := none
  keyword_battery : Option Bool := none
  keyword_display : Option Bool := none
  keyword_fast_charging : Option Bool := none
  keyword_compact : Option Bool := none
  keyword_premium : Option Bool := none
  deriving DecidableEq

/-- The empty filters dict. -/
def emptyFilters : Filters := {}

/-- Python truthiness of the dict: empty iff no key is present. -/
def isEmptyF (f : Filters) : Bool :=
  f.price_min.isNone && f.price_max.isNone && f.ram_min.isNone &&
  f.storage_min.isNone && f.battery_capacity_mah.isNone && f.brand.isNone &&
  f.keyword_gaming.isNone && f.keyword_camera.isNone && f.keyword_budget.isNone &&
  f.keyword_battery.isNone && f.keyword_display.isNone &&
  f.keyword_fast_charging.isNone && f.keyword_compact.isNone && f.keyword_premium.isNone

/-- Python str.capitalize(): first character upper-cased, the rest
lower-cased. -/
def pyCapitalize (s : String) : String :=
  match s.data with
  | [] => ""
  | c :: t => String.mk (c.toUpper :: t.map Char.toLower)

/-- Brand scan of lines 140-149 of src/app.py: walk the lower-cased brand
values of the catalog in order, match verbatim occurrence or one of the
fixed aliases, store the first hit capitalized. -/
def brandFind : List String → List Char → Option String
  | [], _ => none
  | b :: bs, ql =>
    let lb := lowerStr b
    if containsSub ql lb ||
       (lb == "samsung" && containsSub ql "galaxy") ||
       (lb == "apple" && containsSub ql "iphone") ||
       (lb == "xiaomi" && containsSub ql "redmi") ||
       (lb == "oneplus" && containsSub ql "nord") then
      some (pyCapitalize lb)
    else brandFind bs ql

/-- Price keys produced by lines 56-75 of src/app.py, as the pair
(price_min, price_max): the under/less than/below match sets the max, the
explicit range overrides both and shadows the over/above/more than match,
and the around/about window overrides everything set before it. -/
def priceFields (ql : List Char) : Option Nat × Option Nat :=
  let pmin1 : Option Nat :=
    match priceRangeSearch ql with
    | some ab => some ab.1
    | none =>
      match priceMinSearch ql with
      | some n => some n
      | none => none
  let pmax1 : Option Nat :=
    match priceRangeSearch ql with
    | some ab => some ab.2
    | none => priceMaxSearch ql
  match aroundSearch ql with
  | some n => (some (if 2000 < n then n - 2000 else 0), some (n + 2000))
  | none => (pmin1, pmax1)

/-- The ram_min key produced by lines 79-95 of src/app.py: the explicit
N gb ram match wins; otherwise a bare N gb match counts only when the
words storage and rom are absent from the whole utterance; otherwise the
min/at least N gb pattern is tried. -/
def ramMinField (ql : List Char) : Option Nat :=
  match ramExplicitSearch ql with
  | some n => some n
  | none =>
    match ramAmbigSearch ql with
    | some n =>
      if !(containsSub ql "storage") && !(containsSub ql "rom") then some n else none
    | none => ramMinGbSearch ql

/-- The storage_min key produced by lines 98-112 of src/app.py: the
explicit N gb storage/rom match wins; otherwise, when no ram_min was
extracted, a bare N gb is attributed to storage; otherwise the
min/at least N gb pattern is tried. -/
def storageMinField (ql : List Char) : Option Nat :=
  match storageExplicitSearch ql with
  | some n => some n
  | none => if (ramMinField ql).isNone then storageAmbigSearch ql else storageMinGbSearch ql

/-- A keyword flag of lines 121-136 of src/app.py: present and true
exactly when one of the fixed keywords occurs in the utterance. -/
def kwFlag (ks : List String) (ql : List Char) : Option Bool :=
  if ks.any (fun k => containsSub ql k) then some true else none

/-- Model of extract_filters (lines 49-152 of src/app.py). The brands
parameter is the list of distinct brand values of the catalog, in catalog
order, as read from the DataFrame by the source. -/
def extract_filters (brands : List String) (query : String) : Filters :=
  let ql := lowerChars query
  { price_min := (priceFields ql).1
    price_max := (priceFields ql).2
    ram_min := ramMinField ql
    storage_min := storageMinField ql
    battery_capacity_mah := batterySearch ql
    brand := brandFind brands ql
    keyword_gaming := kwFlag ["gaming", "game", "performance", "powerful"] ql
    keyword_camera :=
      kwFlag ["camera", "photo", "photography", "photos", "megapixel", "mp"] ql
    keyword_budget := kwFlag ["budget", "cheap", "affordable", "low cost"] ql
    keyword_battery := kwFlag ["battery", "long lasting", "endurance"] ql
    keyword_display := kwFlag ["display", "screen", "amoled", "oled", "fluid", "hz"] ql
    keyword_fast_charging := kwFlag ["fast charging", "quick charge"] ql
    keyword_compact := kwFlag ["compact", "small"] ql
    keyword_premium := kwFlag ["premium", "flagship"] ql }

example : (extract_filters [] "6gb").ram_min = some 6 := by decide
example : (extract_filters [] "6gb").storage_min = none := by decide
example : (extract_filters [] "8gb ram and 128gb storage").ram_min = some 8 := by decide
example : (extract_filters [] "8gb ram and 128gb storage").storage_min = some 128 := by decide
example : (extract_filters [] "under ₹15000").price_max = some 15000 := by decide
example : (extract_filters [] "₹10000 to ₹20000").price_min = some 10000 := by decide
example : (extract_filters [] "around ₹3000").price_min = some 1000 := by decide
example : (extract_filters [] "around ₹1000").price_min = some 0 := by decide
example : (extract_filters [] "compact phone").keyword_camera = some true := by decide
example : (extract_filters [] "5000 mah battery").battery_capacity_mah = some 5000 := by decide
example : (extract_filters ["Apple", "Samsung"] "a galaxy phone").brand = some "Samsung" := by decide

/-- One row of the cleaned catalog DataFrame. All critical numeric columns
are non-missing after load_data (to_numeric plus dropna); Processor and
launched_year may be missing, matching the fillna treatment in the source. -/
structure Row where
  brand : String
  model : String
  launched_price_rs : ℚ
  ram_gb : ℚ
  storage_gb : ℚ
  battery_capacity_mah : ℚ
  back_camera_mp : ℚ
  screen_size_inches : ℚ
  processor : Option String := none
  launched_year : Option Nat := none
  deriving DecidableEq

/-- Comparison key of sort_values(by=launched_price_rs, ascending=True). -/
def priceLE (a b : Row) : Prop := a.launched_price_rs ≤ b.launched_price_rs

instance : DecidableRel priceLE := fun a b =>
  inferInstanceAs (Decidable (a.launched_price_rs ≤ b.launched_price_rs))

instance : IsTotal Row priceLE :=
  ⟨fun a b => le_total a.launched_price_rs b.launched_price_rs⟩

instance : IsTrans Row priceLE :=
  ⟨fun _ _ _ hab hbc => le_trans hab hbc⟩

/-- Processor test of the gaming keyword: fillna followed by a
case-insensitive regex containment of Snapdragon, Dimensity or Gaming. -/
def procGaming (p : Option String) : Bool :=
  ["snapdragon", "dimensity", "gaming"].any
    (fun k => strContains (lowerStr (p.getD "")) k)

/-- One DataFrame filter guarded by the presence of a key: the boolean-mask
filter of the source when the key is in the dict, the frame unchanged
otherwise. -/
def optFilter {β : Type} (o : Option β) (p : β → Row → Bool) (d : List Row) : List Row :=
  match o with
  | some v => d.filter (p v)
  | none => d

/-- Row predicate of an optFilter stage: trivially true when the key is
absent. -/
def optPred {β : Type} (o : Option β) (p : β → Row → Bool) (r : Row) : Bool :=
  match o with
  | some v => p v r
  | none => true

/-- One DataFrame filter guarded by a boolean condition on the dict. -/
def condFilter (c : Prop) [Decidable c] (p : Row → Bool) (d : List Row) : List Row :=
  if c then d.filter p else d

/-- Row predicate of a condFilter stage. -/
def condPred (c : Prop) [Decidable c] (p : Row → Bool) (r : Row) : Bool :=
  if c then p r else true

/-- Model of filter_data (lines 154-222 of src/app.py): the same sequence
of DataFrame filters, in source order; each stage fires exactly when the
source branch fires (a keyword stage when the flag is present and truthy,
the nested keyword_battery stage when additionally the numeric battery key
is absent), the pandas boolean-mask filters keep row order, and
sort_values ascending by price is modelled by an insertion sort on the
price key. Caveat: the pandas default sort kind is an unstable quicksort,
so the order among rows of equal price is an implementation detail the
model does not reproduce; no theorem below depends on that tie order (the
budget-case conclusions are membership-only, hence
permutation-invariant). -/
def filter_data (df : List Row) (filters : Filters) : List Row :=
  let filtered_df := df
  let filtered_df :=
    optFilter filters.price_max
      (fun v r => decide (r.launched_price_rs ≤ (v : ℚ))) filtered_df
  let filtered_df :=
    optFilter filters.price_min
      (fun v r => decide ((v : ℚ) ≤ r.launched_price_rs)) filtered_df
  let filtered_df :=
    optFilter filters.ram_min (fun v r => decide ((v : ℚ) ≤ r.ram_gb)) filtered_df
  let filtered_df :=
    optFilter filters.storage_min (fun v r => decide ((v : ℚ) ≤ r.storage_gb)) filtered_df
  let filtered_df :=
    optFilter filters.brand (fun b r => lowerStr r.brand == lowerStr b) filtered_df
  let filtered_df :=
    optFilter filters.battery_capacity_mah
      (fun v r => decide ((v : ℚ) ≤ r.battery_capacity_mah)) filtered_df
  let filtered_df :=
    condFilter (filters.keyword_gaming = some true)
      (fun r => decide ((6 : ℚ) ≤ r.ram_gb) && procGaming r.processor) filtered_df
  let filtered_df :=
    condFilter (filters.keyword_camera = some true)
      (fun r => decide ((48 : ℚ) ≤ r.back_camera_mp)) filtered_df
  let filtered_df :=
    if filters.keyword_budget = some true then
      condFilter (filters.price_max = none ∧ filters.price_min = none)
        (fun r => decide (r.launched_price_rs ≤ (15000 : ℚ)))
        (List.insertionSort priceLE filtered_df)
    else filtered_df
  let filtered_df :=
    condFilter (filters.keyword_battery = some true ∧ filters.battery_capacity_mah = none)
      (fun r => decide ((4500 : ℚ) ≤ r.battery_capacity_mah)) filtered_df
  let filtered_df :=
    condFilter (filters.keyword_display = some true)
      (fun r => decide ((6 : ℚ) ≤ r.screen_size_inches)) filtered_df
  let filtered_df :=
    condFilter (filters.keyword_compact = some true)
      (fun r => decide (r.screen_size_inches ≤ (6 : ℚ))) filtered_df
  let filtered_df :=
    condFilter (filters.keyword_premium = some true)
      (fun r => decide ((50000 : ℚ) ≤ r.launched_price_rs)) filtered_df
  filtered_df

/-- Per-stage predicate: price_max key (row price at most the bound). -/
def pPriceMax (f : Filters) (r : Row) : Bool :=
  optPred f.price_max (fun v r => decide (r.launched_price_rs ≤ (v : ℚ))) r

/-- Per-stage predicate: price_min key (row price at least the bound). -/
def pPriceMin (f : Filters) (r : Row) : Bool :=
  optPred f.price_min (fun v r => decide ((v : ℚ) ≤ r.launched_price_rs)) r

/-- Per-stage predicate: ram_min key. -/
def pRamMin (f : Filters) (r : Row) : Bool :=
  optPred f.ram_min (fun v r => decide ((v : ℚ) ≤ r.ram_gb)) r

/-- Per-stage predicate: storage_min key. -/
def pStorageMin (f : Filters) (r : Row) : Bool :=
  optPred f.storage_min (fun v r => decide ((v : ℚ) ≤ r.storage_gb)) r

/-- Per-stage predicate: brand key, case-insensitive equality. -/
def pBrand (f : Filters) (r : Row) : Bool :=
  optPred f.brand (fun b r => lowerStr r.brand == lowerStr b) r

/-- Per-stage predicate: numeric battery_capacity_mah lower bound. -/
def pBattery (f : Filters) (r : Row) : Bool :=
  optPred f.battery_capacity_mah (fun v r => decide ((v : ℚ) ≤ r.battery_capacity_mah)) r

/-- Per-stage predicate: keyword_gaming flag. -/
def pGaming (f : Filters) (r : Row) : Bool :=
  condPred (f.keyword_gaming = some true)
    (fun r => decide ((6 : ℚ) ≤ r.ram_gb) && procGaming r.processor) r

/-- Per-stage predicate: keyword_camera flag. -/
def pCamera (f : Filters) (r : Row) : Bool :=
  condPred (f.keyword_camera = some true)
    (fun r => decide ((48 : ℚ) ≤ r.back_camera_mp)) r

/-- Per-stage predicate: the default price cap of keyword_budget, applied
only when the flag is set and no numeric price key is present. -/
def pBudgetCap (f : Filters) (r : Row) : Bool :=
  condPred (f.keyword_budget = some true ∧ f.price_max = none ∧ f.price_min = none)
    (fun r => decide (r.launched_price_rs ≤ (15000 : ℚ))) r

/-- Per-stage predicate: the implied threshold of keyword_battery, applied
only when the flag is set and the numeric battery key is absent. -/
def pKwBattery (f : Filters) (r : Row) : Bool :=
  condPred (f.keyword_battery = some true ∧ f.battery_capacity_mah = none)
    (fun r => decide ((4500 : ℚ) ≤ r.battery_capacity_mah)) r

/-- Per-stage predicate: keyword_display flag. -/
def pDisplay (f : Filters) (r : Row) : Bool :=
  condPred (f.keyword_display = some true)
    (fun r => decide ((6 : ℚ) ≤ r.screen_size_inches)) r

/-- Per-stage predicate: keyword_compact flag. -/
def pCompact (f : Filters) (r : Row) : Bool :=
  condPred (f.keyword_compact = some true)
    (fun r => decide (r.screen_size_inches ≤ (6 : ℚ))) r

/-- Per-stage predicate: keyword_premium flag. -/
def pPremium (f : Filters) (r : Row) : Bool :=
  condPred (f.keyword_premium = some true)
    (fun r => decide ((50000 : ℚ) ≤ r.launched_price_rs)) r

/-- Conjunction of all per-key predicates of filter_data, in the order the
stages are applied by the source. -/
def matchesRow (f : Filters) (r : Row) : Bool :=
  (((((((((((pPriceMax f r && pPriceMin f r) && pRamMin f r) && pStorageMin f r) &&
    pBrand f r) && pBattery f r) && pGaming f r) && pCamera f r) && pBudgetCap f r) &&
    pKwBattery f r) && pDisplay f r) && pCompact f r) && pPremium f r

/-- The keys a filters dict can hold. -/
inductive ConstraintKey where
  | price_min | price_max | ram_min | storage_min | battery_capacity_mah | brand
  | keyword_gaming | keyword_camera | keyword_budget | keyword_battery
  | keyword_display | keyword_fast_charging | keyword_compact | keyword_premium
  deriving DecidableEq

/-- A value stored in the filters dict. -/
inductive CVal where
  | nat (n : Nat)
  | str (s : String)
  | bool (b : Bool)
  deriving DecidableEq

/-- Dictionary view of a Filters structure: the value held at a key, none
when the key is absent. -/
def getKey (f : Filters) : ConstraintKey → Option CVal
  | .price_min => f.price_min.map .nat
  | .price_max => f.price_max.map .nat
  | .ram_min => f.ram_min.map .nat
  | .storage_min => f.storage_min.map .nat
  | .battery_capacity_mah => f.battery_capacity_mah.map .nat
  | .brand => f.brand.map .str
  | .keyword_gaming => f.keyword_gaming.map .bool
  | .keyword_camera => f.keyword_camera.map .bool
  | .keyword_budget => f.keyword_budget.map .bool
  | .keyword_battery => f.keyword_battery.map .bool
  | .keyword_display => f.keyword_display.map .bool
  | .keyword_fast_charging => f.keyword_fast_charging.map .bool
  | .keyword_compact => f.keyword_compact.map .bool
  | .keyword_premium => f.keyword_premium.map .bool

/-- Per-key update rule of dict.update: a key present in the new dict
overwrites, an absent key keeps the existing entry. -/
def updOpt {α : Type} (ex nw : Option α) : Option α :=
  match nw with
  | some v => some v
  | none => ex

/-- Model of current_filters.update(extracted_new_filters) (line 638 of
src/app.py): the shallow right-biased union of the two dicts. -/
def filtersUpdate (ex nw : Filters) : Filters where
  price_min := updOpt ex.price_min nw.price_min
  price_max := updOpt ex.price_max nw.price_max
  ram_min := updOpt ex.ram_min nw.ram_min
  storage_min := updOpt ex.storage_min nw.storage_min
  battery_capacity_mah := updOpt ex.battery_capacity_mah nw.battery_capacity_mah
  brand := updOpt ex.brand nw.brand
  keyword_gaming := updOpt ex.keyword_gaming nw.keyword_gaming
  keyword_camera := updOpt ex.keyword_camera nw.keyword_camera
  keyword_budget := updOpt ex.keyword_budget nw.keyword_budget
  keyword_battery := updOpt ex.keyword_battery nw.keyword_battery
  keyword_display := updOpt ex.keyword_display nw.keyword_display
  keyword_fast_charging := updOpt ex.keyword_fast_charging nw.keyword_fast_charging
  keyword_compact := updOpt ex.keyword_compact nw.keyword_compact
  keyword_premium := updOpt ex.keyword_premium nw.keyword_premium

/-- Lines 637-638 of src/app.py: the accumulated dict is updated only when
the extracted dict is truthy, which coincides with plain update. -/
def updateIfNonempty (cur nw : Filters) : Filters :=
  if isEmptyF nw then cur else filtersUpdate cur nw

/-- The merged accumulated constraints after one turn: extraction of the
message followed by the guarded update. -/
def mergedFilters (brands : List String) (user_message : String) (cur : Filters) : Filters :=
  updateIfNonempty cur (extract_filters brands user_message)

example :
    filtersUpdate { price_max := some 20000 } { ram_min := some 8 } =
      { price_max := some 20000, ram_min := some 8 } := by decide
example :
    filtersUpdate { price_max := some 20000 } { price_max := some 10000 } =
      { price_max := some 10000 } := by decide

/-- A chat transcript entry, mirroring the role/content message dicts. -/
structure Msg where
  role : String
  content : String
  deriving DecidableEq

def userMsg (s : String) : Msg := ⟨"user", s⟩

def assistantMsg (s : String) : Msg := ⟨"assistant", s⟩

/-- Affirmative keywords of line 616 of src/app.py, checked by substring
containment against the lower-cased utterance. -/
def affirmB (uml : List Char) : Bool :=
  ["yes", "yep", "confirm", "ok", "go ahead", "search", "find", "show me"].any
    (fun k => containsSub uml k)

/-- Negative keywords of line 622 of src/app.py. -/
def negativeB (uml : List Char) : Bool :=
  ["no", "nope", "cancel", "change", "not"].any (fun k => containsSub uml k)

/-- Explicit search-command phrases of line 642 of src/app.py. -/
def searchCmdB (uml : List Char) : Bool :=
  ["search", "find phones", "show me", "go", "results", "ok search", "what do you have"].any
    (fun k => containsSub uml k)

/-- Drop the queued confirmation prompt (lines 620-621 and 625-626 of
src/app.py): pop the last message when it is an assistant message holding
the confirmation question. -/
def popConfirm (ms : List Msg) : List Msg :=
  match ms.getLast? with
  | some m =>
    if m.role == "assistant" &&
        strContains m.content "Does that sound right? Shall I search now" then
      ms.dropLast
    else ms
  | none => ms

/-- The human-readable enumeration of the accumulated constraints, shared
verbatim by the search acknowledgment (lines 652-672) and the dialogue
summary (lines 694-715) of src/app.py. -/
def summaryParts (f : Filters) : List String :=
  let p1 : List String :=
    match f.brand with
    | some b => ["a " ++ b ++ " phone"]
    | none => []
  let p2 : List String :=
    match f.price_min, f.price_max with
    | some a, some b =>
      if a = b then ["around ₹" ++ toString a]
      else ["between ₹" ++ toString a ++ " and ₹" ++ toString b]
    | none, some b => ["under ₹" ++ toString b]
    | some a, none => ["over ₹" ++ toString a]
    | none, none => []
  let p3 : List String :=
    match f.ram_min with
    | some n => ["with at least " ++ toString n ++ "GB RAM"]
    | none => []
  let p4 : List String :=
    match f.storage_min with
    | some n => ["with at least " ++ toString n ++ "GB storage"]
    | none => []
  let p5 : List String :=
    match f.battery_capacity_mah with
    | some n => ["with at least " ++ toString n ++ " mAh battery"]
    | none => []
  let p6 : List String := if f.keyword_gaming.isSome then ["for gaming"] else []
  let p7 : List String := if f.keyword_camera.isSome then ["with a good camera"] else []
  let p8 : List String :=
    if f.keyword_battery.isSome && f.battery_capacity_mah.isNone then
      ["with long battery life"]
    else []
  let p9 : List String := if f.keyword_display.isSome then ["with a great display"] else []
  let p10 : List String := if f.keyword_compact.isSome then ["a compact size"] else []
  let p11 : List String :=
    if f.keyword_premium.isSome then ["a premium/flagship model"] else []
  p1 ++ p2 ++ p3 ++ p4 ++ p5 ++ p6 ++ p7 ++ p8 ++ p9 ++ p10 ++ p11

/-- The acknowledgment composed on a search trigger (lines 651-677 of
src/app.py). -/
def searchResponse (f : Filters) : String :=
  let parts := summaryParts f
  if parts.isEmpty then
    "Understood! Searching for phones based on what we\x27ve discussed."
  else
    "Understood! Searching for " ++ String.intercalate ", " parts ++ " now..."

/-- The response of the empty-criteria branch of the explicit search
command (line 647 of src/app.py). -/
def criteriaNeededResponse : String :=
  "I need some criteria (like price, RAM, or use case) before I can search for phones. What are you looking for?"

/-- Model of get_chatbot_response (lines 606-739 of src/app.py) as a pure
transition: inputs are the utterance, the accumulated filters and the
session state read by the source (confirmation flag and transcript);
outputs are the returned triple plus the session state it wrote. -/
structure ChatResult where
  response : String
  filters : Filters
  trigger_search : Bool
  awaiting : Bool
  messages : List Msg
  deriving DecidableEq

def get_chatbot_response (brands : List String) (user_message : String)
    (current_filters : Filters) (awaiting : Bool) (messages : List Msg) : ChatResult :=
  let uml := lowerChars user_message
  let extracted := extract_filters brands user_message
  let c1 : Bool × Bool × List Msg × String :=
    if awaiting then
      if affirmB uml then (true, false, popConfirm messages, "")
      else if negativeB uml then
        (false, false, popConfirm messages,
         "No problem. What changes would you like to make, or what else are you looking for?")
      else (false, awaiting, messages, "")
    else (false, awaiting, messages, "")
  let trigger1 := c1.1
  let awaiting1 := c1.2.1
  let messages1 := c1.2.2.1
  let response1 := c1.2.2.2
  let current2 := updateIfNonempty current_filters extracted
  if !trigger1 && searchCmdB uml then
    if !(isEmptyF current2) then
      { response := searchResponse current2, filters := current2, trigger_search := true,
        awaiting := false, messages := messages1 }
    else
      { response := criteriaNeededResponse, filters := current2, trigger_search := false,
        awaiting := awaiting1, messages := messages1 }
  else if trigger1 then
    { response := searchResponse current2, filters := current2, trigger_search := true,
      awaiting := awaiting1, messages := messages1 }
  else
    let greeting := ["hi", "hello", "hey", "hii", "holla"].any (fun k => containsSub uml k)
    let ra : String × Bool :=
      if response1 == "" && greeting then
        ("Hello! I\x27m your Phone Advisor. How can I assist you today? Tell me what kind of phone you are looking for. For example: \x27I need a phone under ₹20000 with a good camera\x27.",
         awaiting1)
      else if response1 == "" && (containsSub uml "thank you" || containsSub uml "thanks") then
        ("You\x27re most welcome! Happy to assist. Is there anything else you\x27d like to refine or search for?",
         awaiting1)
      else if response1 == "" && (containsSub uml "help" || containsSub uml "what can you do") then
        ("I can help you find phones based on your preferences. You can ask for a phone \x27under ₹25000\x27, with \x278GB RAM\x27, for \x27gaming\x27, with \x27good camera\x27, or specific brands like \x27Samsung\x27. Just tell me what you\x27re looking for!",
         awaiting1)
      else if response1 == "" && isEmptyF current2 then
        ("To help you better, please tell me what kind of phone you are looking for. For example, \x27a phone under ₹15000\x27 or \x27a gaming phone with good battery\x27.",
         awaiting1)
      else if response1 == "" then
        let summary := summaryParts current2
        if current2.price_max.isNone && current2.price_min.isNone then
          ("What\x27s your budget for the phone?", awaiting1)
        else if current2.ram_min.isNone then
          ("And how much RAM are you looking for? (e.g., \x278GB RAM\x27)", awaiting1)
        else if current2.storage_min.isNone then
          ("What about storage? How much internal storage do you need? (e.g., \x27128GB storage\x27)",
           awaiting1)
        else if current2.battery_capacity_mah.isNone && current2.keyword_battery.isNone then
          ("How about battery life? Do you need a minimum battery capacity (e.g., \x275000 mAh\x27)?",
           awaiting1)
        else if current2.brand.isNone && summary.length < 3 then
          ("Do you have a preferred brand, or any specific features like camera or display you prioritize?",
           awaiting1)
        else if !summary.isEmpty then
          ("So far, you\x27re looking for " ++ String.intercalate ", " summary ++
             ". Does that sound right? Shall I search now or do you have more details?",
           true)
        else
          ("Okay, I\x27ve noted your preferences. Shall I search for phones based on these criteria now, or do you have more details to add?",
           true)
      else (response1, awaiting1)
    let response6 :=
      if ra.1 == "" then
        "I\x27m still learning! Could you please rephrase or tell me more about what you\x27re looking for?"
      else ra.1
    { response := response6, filters := current2, trigger_search := false,
      awaiting := ra.2, messages := messages1 }

/-- The per-turn session effect of the chat-mode handler (lines 908-927 of
src/app.py): append the user message, run the bot, append the assistant
messages, and on a trigger run the Dataset Filter and clear the
accumulated filters. results is some when a search executed this turn. -/
structure TurnResult where
  messages : List Msg
  filters : Filters
  results : Option (List Row)
  awaiting : Bool
  triggered : Bool
  deriving DecidableEq

def chatTurn (brands : List String) (df : List Row) (prompt : String)
    (current_filters : Filters) (awaiting : Bool) (messages : List Msg) : TurnResult :=
  let messages0 := messages ++ [userMsg prompt]
  let res := get_chatbot_response brands prompt current_filters awaiting messages0
  let messages1 :=
    if strContains res.response "Understood! Searching for" then res.messages
    else res.messages ++ [assistantMsg res.response]
  if res.trigger_search then
    let messages2 := messages1 ++ [assistantMsg "Searching for phones now..."]
    let results := filter_data df res.filters
    let messages3 :=
      if results.isEmpty then
        messages2 ++
          [assistantMsg "No phones found matching your combined criteria. Would you like to adjust your preferences?"]
      else messages2
    { messages := messages3, filters := emptyFilters, results := some results,
      awaiting := res.awaiting, triggered := true }
  else
    { messages := messages1, filters := res.filters, results := none,
      awaiting := res.awaiting, triggered := false }

/-- Sample catalog row used by concrete witnesses. -/
def rowA : Row :=
  { brand := "Apple", model := "One", launched_price_rs := 12000, ram_gb := 8,
    storage_gb := 128, battery_capacity_mah := 5000, back_camera_mp := 50,
    screen_size_inches := 6, processor := some "Snapdragon 8", launched_year := some 2021 }

/-- Sample catalog row used by concrete witnesses. -/
def rowB : Row :=
  { brand := "Samsung", model := "Two", launched_price_rs := 30000, ram_gb := 4,
    storage_gb := 64, battery_capacity_mah := 4200, back_camera_mp := 12,
    screen_size_inches := 7 }

/-- Sample catalog row used by concrete witnesses. -/
def rowC : Row :=
  { brand := "Xiaomi", model := "Three", launched_price_rs := 9000, ram_gb := 6,
    storage_gb := 64, battery_capacity_mah := 4600, back_camera_mp := 48,
    screen_size_inches := 5 }

/-- Sample catalog used by concrete witnesses. -/
def sampleCatalog : List Row := [rowA, rowB, rowC]

theorem filter_comp {α : Type} (p q : α → Bool) (l : List α) :
    (l.filter p).filter q = l.filter (fun a => p a && q a) := by
  induction l with
  | nil => rfl
  | cons a t ih => cases hp : p a <;> cases hq : q a <;> simp [List.filter, hp, hq, ih]

theorem optFilter_eq {β : Type} (o : Option β) (p : β → Row → Bool) (d : List Row) :
    optFilter o p d = d.filter (optPred o p) := by
  cases o with
  | none =>
    show d = d.filter (fun r => true)
    exact (List.filter_true d).symm
  | some v => rfl

theorem condFilter_eq (c : Prop) [Decidable c] (p : Row → Bool) (d : List Row) :
    condFilter c p d = d.filter (condPred c p) := by
  by_cases h : c
  · rw [condFilter, if_pos h]
    exact List.filter_congr (fun x _ => by simp [condPred, h])
  · rw [condFilter, if_neg h]
    have h1 : List.filter (condPred c p) d = List.filter (fun _ => true) d :=
      List.filter_congr (fun x _ => by simp [condPred, h])
    exact (h1.trans (List.filter_true d)).symm

theorem orderedInsert_eq_cons {a : Row} {l : List Row} (h : ∀ b ∈ l, priceLE a b) :
    List.orderedInsert priceLE a l = a :: l := by
  cases l with
  | nil => rfl
  | cons b t => simp [List.orderedInsert, if_pos (h b (List.mem_cons_self b t))]

theorem filter_orderedInsert (p : Row → Bool) (a : Row) (l : List Row)
    (hs : List.Sorted priceLE l) :
    (List.orderedInsert priceLE a l).filter p =
      if p a then List.orderedInsert priceLE a (l.filter p) else l.filter p := by
  induction l with
  | nil => cases hpa : p a <;> simp [List.orderedInsert, List.filter, hpa]
  | cons b t ih =>
    rw [List.sorted_cons] at hs
    obtain ⟨hbt, hst⟩ := hs
    by_cases hab : priceLE a b
    · rw [List.orderedInsert, if_pos hab]
      cases hpa : p a
      · simp only [List.filter, hpa, Bool.false_eq_true, if_false]
      · cases hpb : p b
        · have hall : ∀ c ∈ t.filter p, priceLE a c := by
            intro c hc
            exact le_trans hab (hbt c (List.mem_of_mem_filter hc))
          simp [List.filter, hpa, hpb, orderedInsert_eq_cons hall]
        · simp [List.filter, hpa, hpb, List.orderedInsert, if_pos hab]
    · rw [List.orderedInsert, if_neg hab]
      cases hpb : p b
      · simp [List.filter, hpb, ih hst]
      · simp only [List.filter, hpb, ih hst]
        cases hpa : p a
        · simp
        · simp [List.orderedInsert, if_neg hab]

theorem filter_insertionSort (p : Row → Bool) (l : List Row) :
    (List.insertionSort priceLE l).filter p = List.insertionSort priceLE (l.filter p) := by
  induction l with
  | nil => rfl
  | cons a t ih =>
    rw [List.insertionSort,
      filter_orderedInsert p a _ (List.sorted_insertionSort priceLE t), ih]
    cases hpa : p a
    · simp [List.filter, hpa]
    · simp [List.filter, hpa, List.insertionSort]

theorem filter_data_eq (cat : List Row) (f : Filters) :
    filter_data cat f =
      if f.keyword_budget = some true then
        List.insertionSort priceLE (cat.filter (matchesRow f))
      else cat.filter (matchesRow f) := by
  by_cases hb : f.keyword_budget = some true
  · rw [if_pos hb]
    show filter_data cat f = _
    simp only [filter_data, optFilter_eq, condFilter_eq, hb, if_pos, filter_comp,
      filter_insertionSort]
    congr 1
    apply List.filter_congr
    intro r _
    simp [matchesRow, pPriceMax, pPriceMin, pRamMin, pStorageMin, pBrand, pBattery,
      pGaming, pCamera, pBudgetCap, pKwBattery, pDisplay, pCompact, pPremium,
      condPred, hb, Bool.and_assoc]
  · rw [if_neg hb]
    simp only [filter_data, optFilter_eq, condFilter_eq, hb, if_false, filter_comp]
    apply List.filter_congr
    intro r _
    simp [matchesRow, pPriceMax, pPriceMin, pRamMin, pStorageMin, pBrand, pBattery,
      pGaming, pCamera, pBudgetCap, pKwBattery, pDisplay, pCompact, pPremium,
      condPred, hb, Bool.and_assoc]

theorem mem_filter_data {r : Row} {cat : List Row} {f : Filters} :
    r ∈ filter_data cat f ↔ r ∈ cat ∧ matchesRow f r = true := by
  rw [filter_data_eq]
  by_cases hb : f.keyword_budget = some true
  · rw [if_pos hb, (List.perm_insertionSort priceLE _).mem_iff, List.mem_filter]
  · rw [if_neg hb, List.mem_filter]

theorem isEmptyF_iff {f : Filters} : isEmptyF f = true ↔ f = emptyFilters := by
  constructor
  · intro h
    cases f with
    | mk p1 p2 p3 p4 p5 p6 p7 p8 p9 p10 p11 p12 p13 p14 =>
      simp only [isEmptyF, Bool.and_eq_true, Option.isNone_iff_eq_none] at h
      obtain ⟨⟨⟨⟨⟨⟨⟨⟨⟨⟨⟨⟨⟨h1, h2⟩, h3⟩, h4⟩, h5⟩, h6⟩, h7⟩, h8⟩, h9⟩, h10⟩, h11⟩,
        h12⟩, h13⟩, h14⟩ := h
      subst h1 h2 h3 h4 h5 h6 h7 h8 h9 h10 h11 h12 h13 h14
      rfl
  · rintro rfl
    rfl

theorem startsLit_iff {n h : List Char} : startsLit n h = true ↔ n <+: h := by
  induction n generalizing h with
  | nil => simp [startsLit, List.nil_prefix]
  | cons a t ih =>
    cases h with
    | nil => simp [startsLit, List.prefix_nil]
    | cons b hs => simp [startsLit, ih, List.cons_prefix_cons, beq_iff_eq]

theorem containsSub_iff {hay : List Char} {needle : String} :
    containsSub hay needle = true ↔ needle.data <:+: hay := by
  induction hay with
  | nil => simp [containsSub, List.isEmpty_iff, List.infix_nil]
  | cons c t ih =>
    rw [containsSub, Bool.or_eq_true, startsLit_iff, ih, List.infix_cons_iff]

theorem containsSub_trans {ql : List Char} {s t : String}
    (h1 : strContains s t = true) (h2 : containsSub ql s = true) :
    containsSub ql t = true := by
  rw [containsSub_iff] at h2 ⊢
  rw [strContains, containsSub_iff] at h1
  exact h1.trans h2

theorem filter_data_eq_budget (cat : List Row) (f : Filters)
    (hb : f.keyword_budget = some true) :
    filter_data cat f = List.insertionSort priceLE (cat.filter (matchesRow f)) := by
  rw [filter_data_eq, if_pos hb]

theorem filter_data_eq_nobudget (cat : List Row) (f : Filters)
    (hb : f.keyword_budget ≠ some true) :
    filter_data cat f = cat.filter (matchesRow f) := by
  rw [filter_data_eq, if_neg hb]

/-- C1: filter_data returns exactly the rows satisfying the conjunction of
the per-key predicates — price at most price_max, price at least
price_min, ram at least ram_min, storage at least storage_min, battery at
least battery_capacity_mah, brand equal case-insensitively — each present
key applied independently and absent keys unconstraining: whenever the
keyword_budget re-sort is not active the result is literally the
order-preserving List.filter of the catalog by that conjunction, and for
every constraint set (the re-sorted case included) membership in the
result is exactly catalog membership plus the conjunction. -/
theorem claim_C1 :
    (∀ (cat : List Row) (f : Filters), f.keyword_budget ≠ some true →
      filter_data cat f = cat.filter (matchesRow f)) ∧
    (∀ (cat : List Row) (f : Filters) (r : Row),
      r ∈ filter_data cat f ↔ r ∈ cat ∧ matchesRow f r = true) :=
  ⟨filter_data_eq_nobudget, fun _ _ _ => mem_filter_data⟩

theorem claim_C1_witness :
    (filter_data sampleCatalog { price_max := some 15000, ram_min := some 6 } =
      sampleCatalog.filter (matchesRow { price_max := some 15000, ram_min := some 6 })) ∧
    filter_data sampleCatalog { price_max := some 15000, ram_min := some 6 } =
      [rowA, rowC] :=
  ⟨claim_C1.1 sampleCatalog { price_max := some 15000, ram_min := some 6 } (by decide),
   by decide⟩

theorem updOpt_map {α β : Type} (g : α → β) (ex nw : Option α) :
    (∀ v, nw.map g = some v → (updOpt ex nw).map g = some v) ∧
    (nw.map g = none → (updOpt ex nw).map g = ex.map g) := by
  cases nw <;> simp [updOpt]

/-- C2: merging newly extracted constraints into the accumulated set is a
shallow right-biased union — for every existing and new dict and every
key, a key present in the new dict overwrites the entry, and a key absent
from the new dict keeps the existing entry. -/
theorem claim_C2 (ex nw : Filters) (k : ConstraintKey) :
    (∀ v, getKey nw k = some v → getKey (filtersUpdate ex nw) k = some v) ∧
    (getKey nw k = none → getKey (filtersUpdate ex nw) k = getKey ex k) := by
  cases k <;> exact updOpt_map _ _ _

theorem claim_C2_witness :
    getKey (filtersUpdate { price_max := some 20000 } { ram_min := some 8 })
        ConstraintKey.price_max = some (CVal.nat 20000) ∧
    getKey (filtersUpdate { price_max := some 20000 } { ram_min := some 8 })
        ConstraintKey.ram_min = some (CVal.nat 8) ∧
    getKey (filtersUpdate { price_max := some 20000 } { price_max := some 10000 })
        ConstraintKey.price_max = some (CVal.nat 10000) :=
  ⟨((claim_C2 { price_max := some 20000 } { ram_min := some 8 }
      ConstraintKey.price_max).2 rfl).trans rfl,
   (claim_C2 { price_max := some 20000 } { ram_min := some 8 }
      ConstraintKey.ram_min).1 (CVal.nat 8) rfl,
   (claim_C2 { price_max := some 20000 } { price_max := some 10000 }
      ConstraintKey.price_max).1 (CVal.nat 10000) rfl⟩

/-- C7: the keyword_battery implied threshold (battery at least 4500) is
applied only when the numeric battery_capacity_mah key is absent — when
the numeric key holds some v the keyword flag is a no-op on the result,
and the pair keyword_battery plus battery at v filters exactly by battery
at least v, not by the 4500 default. -/
theorem claim_C7 :
    (∀ (cat : List Row) (f : Filters) (v : Nat), f.battery_capacity_mah = some v →
      filter_data cat f = filter_data cat { f with keyword_battery := none }) ∧
    (∀ (cat : List Row) (v : Nat),
      filter_data cat { battery_capacity_mah := some v, keyword_battery := some true } =
        cat.filter (fun r => decide ((v : ℚ) ≤ r.battery_capacity_mah))) := by
  constructor
  · intro cat f v hv
    have hm : matchesRow { f with keyword_battery := none } = matchesRow f := by
      funext r
      simp only [matchesRow, pPriceMax, pPriceMin, pRamMin, pStorageMin, pBrand,
        pBattery, pGaming, pCamera, pBudgetCap, pKwBattery, pDisplay, pCompact,
        pPremium, condPred, optPred]
      rw [hv]
      simp
    rw [filter_data_eq, filter_data_eq, hm]
  · intro cat v
    rw [filter_data_eq_nobudget _ _ (by simp)]
    apply List.filter_congr
    intro r _
    simp [matchesRow, pPriceMax, pPriceMin, pRamMin, pStorageMin, pBrand, pBattery,
      pGaming, pCamera, pBudgetCap, pKwBattery, pDisplay, pCompact, pPremium,
      condPred, optPred]

theorem claim_C7_witness :
    (filter_data sampleCatalog
        { battery_capacity_mah := some 4000, keyword_battery := some true } =
      filter_data sampleCatalog
        { battery_capacity_mah := some 4000, keyword_battery := none }) ∧
    filter_data sampleCatalog
        { battery_capacity_mah := some 4000, keyword_battery := some true } =
      [rowA, rowB, rowC] :=
  ⟨claim_C7.1 sampleCatalog
      { battery_capacity_mah := some 4000, keyword_battery := some true } 4000 rfl,
   by decide⟩

/-- C8: keyword_display filters to screen size at least 6.0 inches,
keyword_compact to screen size at most 6.0 inches, and when both flags are
present every row returned by filter_data has screen size exactly 6.0. -/
theorem claim_C8 :
    (∀ cat : List Row, filter_data cat { keyword_display := some true } =
        cat.filter (fun r => decide ((6 : ℚ) ≤ r.screen_size_inches))) ∧
    (∀ cat : List Row, filter_data cat { keyword_compact := some true } =
        cat.filter (fun r => decide (r.screen_size_inches ≤ (6 : ℚ)))) ∧
    (∀ (cat : List Row) (f : Filters) (r : Row), f.keyword_display = some true →
      f.keyword_compact = some true → r ∈ filter_data cat f →
      r.screen_size_inches = 6) := by
  refine ⟨?_, ?_, ?_⟩
  · intro cat
    rw [filter_data_eq_nobudget _ _ (by decide)]
    apply List.filter_congr
    intro r _
    simp [matchesRow, pPriceMax, pPriceMin, pRamMin, pStorageMin, pBrand, pBattery,
      pGaming, pCamera, pBudgetCap, pKwBattery, pDisplay, pCompact, pPremium,
      condPred, optPred]
  · intro cat
    rw [filter_data_eq_nobudget _ _ (by decide)]
    apply List.filter_congr
    intro r _
    simp [matchesRow, pPriceMax, pPriceMin, pRamMin, pStorageMin, pBrand, pBattery,
      pGaming, pCamera, pBudgetCap, pKwBattery, pDisplay, pCompact, pPremium,
      condPred, optPred]
  · intro cat f r hd hc hmem
    have hme := (mem_filter_data.mp hmem).2
    simp only [matchesRow, Bool.and_eq_true] at hme
    obtain ⟨⟨⟨_, hdisp⟩, hcomp⟩, _⟩ := hme
    rw [pDisplay, condPred, if_pos hd] at hdisp
    rw [pCompact, condPred, if_pos hc] at hcomp
    exact le_antisymm (of_decide_eq_true hcomp) (of_decide_eq_true hdisp)

theorem claim_C8_witness :
    rowA.screen_size_inches = 6 :=
  claim_C8.2.2 sampleCatalog { keyword_display := some true, keyword_compact := some true }
    rowA rfl rfl (by decide)

/-- C4: when the explicit N gb ram pattern does not match and the bare
N gb pattern (with its storage/rom lookahead) captures n, the extractor
sets ram_min to n exactly when the whole utterance contains neither the
word storage nor the word rom; and when no ram_min resulted and the
explicit storage pattern does not match, a bare N gb capture m sets
storage_min to m instead. -/
theorem claim_C4 (brands : List String) (q : String) (n : Nat)
    (h1 : ramExplicitSearch (lowerChars q) = none)
    (h2 : ramAmbigSearch (lowerChars q) = some n) :
    ((extract_filters brands q).ram_min =
      if !(containsSub (lowerChars q) "storage") && !(containsSub (lowerChars q) "rom")
      then some n else none) ∧
    ((extract_filters brands q).ram_min = none →
      storageExplicitSearch (lowerChars q) = none →
      ∀ m, storageAmbigSearch (lowerChars q) = some m →
        (extract_filters brands q).storage_min = some m) := by
  constructor
  · show ramMinField (lowerChars q) = _
    unfold ramMinField
    rw [h1, h2]
  · intro hr hse m hsa
    have hr' : ramMinField (lowerChars q) = none := hr
    show storageMinField (lowerChars q) = some m
    unfold storageMinField
    rw [hse, hr', hsa]
    rfl

theorem claim_C4_witness :
    (extract_filters [] "6gb").ram_min = some 6 ∧
    (extract_filters [] "6gb").storage_min = none := by
  constructor
  · have h := (claim_C4 [] "6gb" 6 (by decide) (by decide)).1
    rw [h]
    decide
  · decide

/-- C6 counterexample: an utterance containing under-rupee-15000 for which
extraction nevertheless yields a price_min (set by the over/above pattern
matching elsewhere in the same utterance), refuting that every utterance
containing an under-price phrase has no price_min. -/
theorem claim_C6_counterexample :
    strContains (lowerStr "phones under ₹15000 and above ₹5000") "under ₹15000" = true ∧
    (extract_filters [] "phones under ₹15000 and above ₹5000").price_max = some 15000 ∧
    (extract_filters [] "phones under ₹15000 and above ₹5000").price_min = some 5000 ∧
    ¬ (extract_filters [] "phones under ₹15000 and above ₹5000").price_min = none := by
  refine ⟨by decide, by decide, by decide, by decide⟩

/-- C6 amended: when the under/less than/below search captures n and none
of the other price patterns (explicit rupee range, over/above/more than,
around/about) matches anywhere in the utterance, extraction yields
price_max equal to n and no price_min. -/
theorem claim_C6 (brands : List String) (q : String) (n : Nat)
    (h1 : priceMaxSearch (lowerChars q) = some n)
    (h2 : priceRangeSearch (lowerChars q) = none)
    (h3 : priceMinSearch (lowerChars q) = none)
    (h4 : aroundSearch (lowerChars q) = none) :
    (extract_filters brands q).price_max = some n ∧
    (extract_filters brands q).price_min = none := by
  constructor
  · show (priceFields (lowerChars q)).2 = some n
    unfold priceFields
    rw [h2, h4, h1]
  · show (priceFields (lowerChars q)).1 = none
    unfold priceFields
    rw [h2, h3, h4]

theorem claim_C6_witness :
    (extract_filters [] "under ₹15000").price_max = some 15000 ∧
    (extract_filters [] "under ₹15000").price_min = none :=
  claim_C6 [] "under ₹15000" 15000 (by decide) (by decide) (by decide) (by decide)

/-- C9: feature keywords are detected by raw substring containment and mp
is in the camera keyword list, so every utterance whose lower-cased text
contains the word compact (which contains mp) sets keyword_camera in
addition to keyword_compact, and every row filter_data then returns for
such an extraction has back camera at least 48 MP. -/
theorem claim_C9 (brands : List String) (q : String)
    (h : containsSub (lowerChars q) "compact" = true) :
    (extract_filters brands q).keyword_camera = some true ∧
    (extract_filters brands q).keyword_compact = some true ∧
    (∀ (cat : List Row) (r : Row), r ∈ filter_data cat (extract_filters brands q) →
      (48 : ℚ) ≤ r.back_camera_mp) := by
  have hmp : containsSub (lowerChars q) "mp" = true :=
    containsSub_trans (by decide) h
  have hcam : (extract_filters brands q).keyword_camera = some true := by
    show kwFlag ["camera", "photo", "photography", "photos", "megapixel", "mp"]
      (lowerChars q) = some true
    rw [kwFlag]
    have hx : (["camera", "photo", "photography", "photos", "megapixel", "mp"].any
        fun k => containsSub (lowerChars q) k) = true := by
      simp only [List.any_eq_true]
      exact ⟨"mp", by simp, hmp⟩
    rw [hx]
    simp
  refine ⟨hcam, ?_, ?_⟩
  · show kwFlag ["compact", "small"] (lowerChars q) = some true
    rw [kwFlag]
    have hx : (["compact", "small"].any fun k => containsSub (lowerChars q) k) = true := by
      simp only [List.any_eq_true]
      exact ⟨"compact", by simp, h⟩
    rw [hx]
    simp
  · intro cat r hmem
    have hme := (mem_filter_data.mp hmem).2
    simp only [matchesRow, Bool.and_eq_true] at hme
    obtain ⟨⟨⟨⟨⟨⟨_, hcam8⟩, _⟩, _⟩, _⟩, _⟩, _⟩ := hme
    rw [pCamera, condPred, if_pos hcam] at hcam8
    exact of_decide_eq_true hcam8

theorem claim_C9_witness :
    (extract_filters [] "a compact phone").keyword_camera = some true ∧
    (extract_filters [] "a compact phone").keyword_compact = some true ∧
    (∀ (cat : List Row) (r : Row),
      r ∈ filter_data cat (extract_filters [] "a compact phone") →
      (48 : ℚ) ≤ r.back_camera_mp) :=
  claim_C9 [] "a compact phone" (by decide)

/-- C3: while the pending-confirmation flag is set, an utterance holding
an affirmative keyword triggers the search in the same turn — the chat
handler executes filter_data on the accumulated constraints merged with
the extraction of this turn — and afterwards the accumulated constraint
set is reset to empty and the confirmation flag to false. -/
theorem claim_C3 (brands : List String) (cat : List Row) (msg : String)
    (cur : Filters) (messages : List Msg)
    (h : affirmB (lowerChars msg) = true) :
    (chatTurn brands cat msg cur true messages).triggered = true ∧
    (chatTurn brands cat msg cur true messages).filters = emptyFilters ∧
    (chatTurn brands cat msg cur true messages).awaiting = false ∧
    (chatTurn brands cat msg cur true messages).results =
      some (filter_data cat (updateIfNonempty cur (extract_filters brands msg))) := by
  simp [chatTurn, get_chatbot_response, h]

theorem claim_C3_witness :
    (chatTurn ["apple"] sampleCatalog "yes" { price_max := some 15000 } true
        []).triggered = true ∧
    (chatTurn ["apple"] sampleCatalog "yes" { price_max := some 15000 } true
        []).filters = emptyFilters ∧
    (chatTurn ["apple"] sampleCatalog "yes" { price_max := some 15000 } true
        []).awaiting = false ∧
    (chatTurn ["apple"] sampleCatalog "yes" { price_max := some 15000 } true
        []).results =
      some (filter_data sampleCatalog
        (updateIfNonempty { price_max := some 15000 } (extract_filters ["apple"] "yes"))) :=
  claim_C3 ["apple"] sampleCatalog "yes" { price_max := some 15000 } [] (by decide)

/-- C5 counterexample: at a dialogue state with the pending-confirmation
flag set and empty accumulated constraints, the utterance search (a search
command) triggers a search through the affirmative-keyword branch even
though the merged constraint set is empty, refuting the claimed
equivalence for every dialogue state. -/
theorem claim_C5_counterexample :
    strContains (lowerStr "search") "search" = true ∧
    (get_chatbot_response ["apple"] "search" emptyFilters true []).filters =
      emptyFilters ∧
    (get_chatbot_response ["apple"] "search" emptyFilters true []).trigger_search =
      true := by
  refine ⟨by decide, by decide, by decide⟩

/-- C5 amended: an utterance containing an explicit search command
triggers a search exactly when the merged accumulated constraint set is
non-empty, provided the pending-confirmation flag is unset or the
utterance holds no affirmative keyword (while the flag is set, an
affirmative keyword triggers the search regardless of the constraints);
and when the merged set is empty (and no affirmative confirmation
applies), the response states that criteria are needed, no search is
triggered, and the constraint set is returned unchanged. -/
theorem claim_C5 (brands : List String) (msg : String) (cur : Filters)
    (awaiting : Bool) (messages : List Msg)
    (h1 : searchCmdB (lowerChars msg) = true)
    (h2 : awaiting = false ∨ affirmB (lowerChars msg) = false) :
    ((get_chatbot_response brands msg cur awaiting messages).trigger_search = true ↔
      updateIfNonempty cur (extract_filters brands msg) ≠ emptyFilters) ∧
    (updateIfNonempty cur (extract_filters brands msg) = emptyFilters →
      (get_chatbot_response brands msg cur awaiting messages).response =
        criteriaNeededResponse ∧
      (get_chatbot_response brands msg cur awaiting messages).trigger_search = false ∧
      (get_chatbot_response brands msg cur awaiting messages).filters =
        updateIfNonempty cur (extract_filters brands msg)) := by
  have hEmpty : isEmptyF emptyFilters = true := rfl
  by_cases hcur : isEmptyF (updateIfNonempty cur (extract_filters brands msg)) = true
  · have hc' : updateIfNonempty cur (extract_filters brands msg) = emptyFilters :=
      isEmptyF_iff.mp hcur
    rcases h2 with h2 | h2
    · subst h2
      simp [get_chatbot_response, h1, hcur, hc', hEmpty]
    · cases awaiting
      · simp [get_chatbot_response, h1, hcur, hc', hEmpty]
      · cases hneg : negativeB (lowerChars msg) <;>
          simp [get_chatbot_response, h1, h2, hneg, hcur, hc', hEmpty]
  · have hb : isEmptyF (updateIfNonempty cur (extract_filters brands msg)) = false := by
      cases hx : isEmptyF (updateIfNonempty cur (extract_filters brands msg))
      · rfl
      · exact absurd hx hcur
    have hne : updateIfNonempty cur (extract_filters brands msg) ≠ emptyFilters :=
      fun he => hcur (isEmptyF_iff.mpr he)
    rcases h2 with h2 | h2
    · subst h2
      simp [get_chatbot_response, h1, hb, hne]
    · cases awaiting
      · simp [get_chatbot_response, h1, hb, hne]
      · cases hneg : negativeB (lowerChars msg) <;>
          simp [get_chatbot_response, h1, h2, hneg, hb, hne]

theorem claim_C5_witness :
    (get_chatbot_response ["apple"] "find phones under ₹10000" emptyFilters false
        []).trigger_search = true :=
  (claim_C5 ["apple"] "find phones under ₹10000" emptyFilters false [] (by decide)
    (Or.inl rfl)).1.mpr (by decide)
